import Mathlib

/-!
Verification of the QR scanner front-end (src/src/App.jsx).

The development shallowly embeds the two pieces of original logic:

* the codec (`encode` / `decode`, lines 7-26), built on the browser
  builtins `btoa` / `atob`, which are modelled here as executable
  functions on lists of UTF-16 code units (`Nat`), following the
  WHATWG forgiving-base64 algorithm that `atob` implements;
* the scan-submit workflow (`sendToBackend`, lines 69-107, together
  with the click handlers and the button `disabled` predicates of the
  view, lines 109-121 and 184-204), modelled as a pure transition
  function on an explicit `AppState`, parameterised by the outcome of
  the awaited `fetch`.

JavaScript strings are modelled as `List Nat` (UTF-16 code units) for
the codec, where the character-level arithmetic matters, and as `String`
inside the workflow state, where the text is opaque.
-/

namespace SrijanScanner

/-- The base64 alphabet as character codes: `A`-`Z`, `a`-`z`, `0`-`9`, `+`, `/`. -/
def b64Alphabet : List Nat :=
  [65, 66, 67, 68, 69, 70, 71, 72, 73, 74, 75, 76, 77, 78, 79, 80,
   81, 82, 83, 84, 85, 86, 87, 88, 89, 90,
   97, 98, 99, 100, 101, 102, 103, 104, 105, 106, 107, 108, 109, 110, 111, 112,
   113, 114, 115, 116, 117, 118, 119, 120, 121, 122,
   48, 49, 50, 51, 52, 53, 54, 55, 56, 57, 43, 47]

/-- Character code of the 6-bit value `n` in the base64 alphabet. -/
def encB64 (n : Nat) : Nat := b64Alphabet.getD n 0

/-- Position of the character code `c` in a list of character codes. -/
def findB64 (c : Nat) : List Nat → Option Nat
  | [] => none
  | x :: xs => if x = c then some 0 else (findB64 c xs).map (· + 1)

/-- The 6-bit value of a base64 character code, or `none` if it is not
in the alphabet. -/
def idxB64 (c : Nat) : Option Nat := findB64 c b64Alphabet

/-- ASCII whitespace, which forgiving-base64 (the algorithm behind
`atob`) strips before decoding. -/
def isB64Ws (c : Nat) : Bool := c == 9 || c == 10 || c == 12 || c == 13 || c == 32

/-- Base64 encoding of a list of bytes, three bytes to a quad of base64
characters, with `=` (code 61) padding. Models the output of `btoa`. -/
def btoaChunks : List Nat → List Nat
  | [] => []
  | [a] => [encB64 (a / 4), encB64 (a % 4 * 16), 61, 61]
  | [a, b] => [encB64 (a / 4), encB64 (a % 4 * 16 + b / 16), encB64 (b % 16 * 4), 61]
  | a :: b :: c :: rest =>
      encB64 (a / 4) :: encB64 (a % 4 * 16 + b / 16) ::
      encB64 (b % 16 * 4 + c / 64) :: encB64 (c % 64) :: btoaChunks rest

/-- The browser builtin `btoa`: fails (throws `InvalidCharacterError`,
modelled as `none`) when some code unit exceeds 255, otherwise returns
the base64 encoding of the code units read as bytes. -/
def btoa (l : List Nat) : Option (List Nat) :=
  if l.all (fun c => decide (c ≤ 255)) then some (btoaChunks l) else none

/-- Decode a final base64 group of two characters into one byte. -/
def dec2 (a b : Nat) : Option (List Nat) :=
  match idxB64 a, idxB64 b with
  | some va, some vb => some [va * 4 + vb / 16]
  | _, _ => none

/-- Decode a final base64 group of three characters into two bytes. -/
def dec3 (a b c : Nat) : Option (List Nat) :=
  match idxB64 a, idxB64 b, idxB64 c with
  | some va, some vb, some vc => some [va * 4 + vb / 16, vb % 16 * 16 + vc / 4]
  | _, _, _ => none

/-- Decode a whitespace-free base64 character sequence into bytes,
following forgiving-base64: trailing `=` padding is accepted on the
last quad only, a dangling single character is an error, and any
character outside the alphabet is an error. -/
def decQuads : List Nat → Option (List Nat)
  | [] => some []
  | [_] => none
  | [a, b] => dec2 a b
  | [a, b, c] => dec3 a b c
  | a :: b :: c :: d :: rest =>
      if rest.isEmpty && c == 61 && d == 61 then dec2 a b
      else if rest.isEmpty && d == 61 then dec3 a b c
      else
        match idxB64 a, idxB64 b, idxB64 c, idxB64 d, decQuads rest with
        | some va, some vb, some vc, some vd, some bs =>
            some ((va * 4 + vb / 16) :: (vb % 16 * 16 + vc / 4) ::
                  (vc % 4 * 64 + vd) :: bs)
        | _, _, _, _, _ => none

/-- The browser builtin `atob` (forgiving-base64 decode): strip ASCII
whitespace, then decode quad by quad; `none` models the thrown
`InvalidCharacterError` on malformed input. -/
def atob (l : List Nat) : Option (List Nat) :=
  decQuads (l.filter (fun c => !isB64Ws c))

/-- `String.fromCharCode(str.charCodeAt(i) + 3)` from `encode`
(App.jsx line 10): JavaScript `fromCharCode` reduces its argument
modulo 2^16 (ToUint16). -/
def shiftUnit (c : Nat) : Nat := (c + 3) % 65536

/-- `String.fromCharCode(decoded.charCodeAt(i) - 3)` from `decode`
(App.jsx line 20): subtracting 3 and reducing modulo 2^16, written
with the additive inverse 65533 to stay in `Nat`. -/
def unshiftUnit (c : Nat) : Nat := (c + 65533) % 65536

/-- `encode` (App.jsx lines 7-13): shift every UTF-16 code unit up by
3, then `btoa` the result. `none` models the exception `btoa` throws
when a shifted unit exceeds 255. -/
def encode (s : List Nat) : Option (List Nat) := btoa (s.map shiftUnit)

/-- UTF-16 code units of a Lean string literal (all literals used here
are in the Basic Multilingual Plane, where code units and code points
coincide). -/
def strUnits (s : String) : List Nat := s.data.map Char.toNat

/-- The sentinel `"Invalid encoded data"` returned by `decode` on
malformed input (App.jsx line 24). -/
def invalidSentinel : List Nat := strUnits "Invalid encoded data"

/-- `decode` (App.jsx lines 15-26): `atob`, then shift every code unit
down by 3; the `try`/`catch` turns an `atob` failure into the sentinel
string, so `decode` is total. -/
def decode (s : List Nat) : List Nat :=
  match atob s with
  | some d => d.map unshiftUnit
  | none => invalidSentinel

/-- The two values `selectedAction` can take besides `null`. -/
inductive Action
  | entry
  | exit
deriving DecidableEq

/-- The four pieces of component state touched by the scan workflow
(App.jsx lines 29-32): `scanResult`, `isScanning`, `status`,
`selectedAction`. -/
structure AppState where
  scanResult : Option String
  isScanning : Bool
  status : String
  selectedAction : Option Action
deriving DecidableEq

/-- Outcome of the awaited `fetch` and of the response handling inside
`sendToBackend`:
* `ok`: HTTP 2xx and `response.json()` succeeded (lines 86-90);
* `okBadJson`: HTTP 2xx but `response.json()` threw, so control moves
  to the `catch` block with the thrown message (line 87 then 101-103);
* `nonOk`: HTTP non-2xx, carrying the optional `message` field of the
  parsed error body and the transport `statusText` (lines 91-100);
* `thrown`: `fetch` itself threw (network/transport error, line 101);
* `nonOkThenThrown`: an exception raised inside the non-2xx handling
  path itself, caught by the same `catch` block (lines 92-99 then
  101-103). -/
inductive Outcome
  | ok
  | okBadJson (message : String)
  | nonOk (bodyMessage : Option String) (statusText : String)
  | thrown (message : String)
  | nonOkThenThrown (message : String)
deriving DecidableEq

/-- The backend base URL (App.jsx line 5), at its default value. -/
def BACKEND_URL : String := "http://localhost:3000"

/-- The single HTTP request `sendToBackend` issues (App.jsx lines
76-84); the JSON body `{ emaildata: scanResult }` is modelled by its
one field. -/
structure Request where
  method : String
  url : String
  contentType : String
  bodyEmaildata : String
deriving DecidableEq

/-- JavaScript falsiness of `scanResult` as used in the guard
`if (!scanResult) return` (App.jsx line 70): `null` and the empty
string are falsy. -/
def jsFalsy : Option String → Bool
  | none => true
  | some s => s == ""

/-- Executable prefix test on character lists. -/
def isPrefixOfList : List Char → List Char → Bool
  | [], _ => true
  | _ :: _, [] => false
  | a :: as, b :: bs => a == b && isPrefixOfList as bs

/-- Executable substring test on character lists. -/
def containsSub (n : List Char) : List Char → Bool
  | [] => isPrefixOfList n []
  | x :: t => isPrefixOfList n (x :: t) || containsSub n t

/-- JavaScript `String.prototype.includes`, used as
`endpoint.includes('entry')` and to state the message-content claims. -/
def strIncludes (n s : String) : Bool := containsSub n.data s.data

/-- `endpoint.includes('entry')` (App.jsx lines 88, 90, 95). -/
def includesEntry (e : String) : Bool := strIncludes "entry" e

/-- The success status message (App.jsx line 88). -/
def successStatus (e : String) : String :=
  "✓ " ++ (if includesEntry e then "Entry" else "Exit") ++ " recorded successfully!"

/-- The non-2xx failure status message (App.jsx lines 92-99):
`errorData.message || response.statusText`, then a kind-specific
template. -/
def failureStatus (e : String) (bodyMessage : Option String) (statusText : String) : String :=
  let errorMessage :=
    match bodyMessage with
    | some m => if m == "" then statusText else m
    | none => statusText
  if includesEntry e then
    "✗ Entry Error: " ++ errorMessage ++ " (User may have already entered)"
  else
    "✗ Exit Error: " ++ errorMessage ++ " (User may not have entered yet)"

/-- The `catch` block status message (App.jsx line 102). -/
def networkStatus (m : String) : String := "✗ Network Error: " ++ m

/-- `sendToBackend` (App.jsx lines 69-107) as a pure transition: given
the current state, the endpoint string and the outcome of the awaited
request, it returns the final state together with the request issued
(`none` when the `if (!scanResult) return` guard fires). The `finally`
block is the trailing `isScanning := false`, applied on every path,
exactly as `finally` runs on every path out of the `try`/`catch`. -/
def sendToBackend (st : AppState) (endpoint : String) (out : Outcome) :
    AppState × Option Request :=
  if jsFalsy st.scanResult then (st, none)
  else
    let scanned := st.scanResult.getD ""
    let req : Request :=
      { method := "POST", url := BACKEND_URL ++ endpoint,
        contentType := "application/json", bodyEmaildata := scanned }
    let st1 := { st with isScanning := true, status := "Sending to backend..." }
    let st2 :=
      match out with
      | Outcome.ok =>
          { st1 with status := successStatus endpoint,
                     selectedAction :=
                       some (if includesEntry endpoint then Action.entry else Action.exit) }
      | Outcome.okBadJson m => { st1 with status := networkStatus m }
      | Outcome.nonOk bm t => { st1 with status := failureStatus endpoint bm t }
      | Outcome.thrown m => { st1 with status := networkStatus m }
      | Outcome.nonOkThenThrown m => { st1 with status := networkStatus m }
    ({ st2 with isScanning := false }, some req)

/-- `handleEntry` (App.jsx lines 109-111). -/
def handleEntry (st : AppState) (out : Outcome) : AppState × Option Request :=
  sendToBackend st "/api/v1/qr/allow-entry" out

/-- `handleExit` (App.jsx lines 113-115). -/
def handleExit (st : AppState) (out : Outcome) : AppState × Option Request :=
  sendToBackend st "/api/v1/qr/exit" out

/-- `disabled` predicate of the entry button (App.jsx line 186). -/
def entryDisabled (st : AppState) : Bool :=
  st.isScanning || st.selectedAction == some Action.entry

/-- `disabled` predicate of the exit button (App.jsx line 197). -/
def exitDisabled (st : AppState) : Bool :=
  st.isScanning || st.selectedAction == some Action.exit

/-- Induction on a list of bytes three at a time, following the shape
of `btoaChunks`. -/
def threeStepInduction {P : List Nat → Prop} (h0 : P [])
    (h1 : ∀ a, P [a]) (h2 : ∀ a b, P [a, b])
    (h3 : ∀ a b c rest, P rest → P (a :: b :: c :: rest)) : ∀ l, P l
  | [] => h0
  | [a] => h1 a
  | [a, b] => h2 a b
  | a :: b :: c :: rest => h3 a b c rest (threeStepInduction h0 h1 h2 h3 rest)

theorem idxB64_encB64 : ∀ n < 64, idxB64 (encB64 n) = some n := by decide

theorem b64Alphabet_length : b64Alphabet.length = 64 := by decide

theorem beq_encB64_61 (n : Nat) : (encB64 n == 61) = false := by
  rcases Nat.lt_or_ge n 64 with h | h
  · exact (by decide : ∀ m < 64, (encB64 m == 61) = false) n h
  · have he : encB64 n = 0 := by
      unfold encB64
      exact List.getD_eq_default _ _ (b64Alphabet_length ▸ h)
    simp [he]

theorem isB64Ws_encB64 (n : Nat) : isB64Ws (encB64 n) = false := by
  rcases Nat.lt_or_ge n 64 with h | h
  · exact (by decide : ∀ m < 64, isB64Ws (encB64 m) = false) n h
  · have he : encB64 n = 0 := by
      unfold encB64
      exact List.getD_eq_default _ _ (b64Alphabet_length ▸ h)
    simp [he, isB64Ws]

theorem decQuads_btoaChunks : ∀ l : List Nat, (∀ x ∈ l, x ≤ 255) →
    decQuads (btoaChunks l) = some l := by
  intro l
  induction l using threeStepInduction with
  | h0 => intro _; rfl
  | h1 a =>
    intro h
    have ha : a ≤ 255 := h a (by simp)
    have e1 : idxB64 (encB64 (a / 4)) = some (a / 4) := idxB64_encB64 _ (by omega)
    have e2 : idxB64 (encB64 (a % 4 * 16)) = some (a % 4 * 16) := idxB64_encB64 _ (by omega)
    simp [btoaChunks, decQuads, dec2, e1, e2]
    omega
  | h2 a b =>
    intro h
    have ha : a ≤ 255 := h a (by simp)
    have hb : b ≤ 255 := h b (by simp)
    have e1 : idxB64 (encB64 (a / 4)) = some (a / 4) := idxB64_encB64 _ (by omega)
    have e2 : idxB64 (encB64 (a % 4 * 16 + b / 16)) = some (a % 4 * 16 + b / 16) :=
      idxB64_encB64 _ (by omega)
    have e3 : idxB64 (encB64 (b % 16 * 4)) = some (b % 16 * 4) := idxB64_encB64 _ (by omega)
    simp [btoaChunks, decQuads, dec3, beq_encB64_61, e1, e2, e3]
    omega
  | h3 a b c rest ih =>
    intro h
    have ha : a ≤ 255 := h a (by simp)
    have hb : b ≤ 255 := h b (by simp)
    have hc : c ≤ 255 := h c (by simp)
    have hrest : ∀ x ∈ rest, x ≤ 255 := fun x hx => h x (by simp [hx])
    have e1 : idxB64 (encB64 (a / 4)) = some (a / 4) := idxB64_encB64 _ (by omega)
    have e2 : idxB64 (encB64 (a % 4 * 16 + b / 16)) = some (a % 4 * 16 + b / 16) :=
      idxB64_encB64 _ (by omega)
    have e3 : idxB64 (encB64 (b % 16 * 4 + c / 64)) = some (b % 16 * 4 + c / 64) :=
      idxB64_encB64 _ (by omega)
    have e4 : idxB64 (encB64 (c % 64)) = some (c % 64) := idxB64_encB64 _ (by omega)
    simp [btoaChunks, decQuads, beq_encB64_61, e1, e2, e3, e4, ih hrest]
    omega

theorem isB64Ws_61 : isB64Ws 61 = false := by decide

theorem btoaChunks_noWs : ∀ l : List Nat,
    (btoaChunks l).filter (fun c => !isB64Ws c) = btoaChunks l := by
  intro l
  induction l using threeStepInduction with
  | h0 => rfl
  | h1 a => simp [btoaChunks, List.filter_cons, isB64Ws_encB64, isB64Ws_61]
  | h2 a b => simp [btoaChunks, List.filter_cons, isB64Ws_encB64, isB64Ws_61]
  | h3 a b c rest ih => simp [btoaChunks, List.filter_cons, isB64Ws_encB64, ih]

theorem atob_btoaChunks (l : List Nat) (h : ∀ x ∈ l, x ≤ 255) :
    atob (btoaChunks l) = some l := by
  rw [atob, btoaChunks_noWs]
  exact decQuads_btoaChunks l h

theorem shiftUnit_roundtrip (s : List Nat) (h : ∀ c ∈ s, c ≤ 65532) :
    (s.map shiftUnit).map unshiftUnit = s := by
  induction s with
  | nil => rfl
  | cons a t ih =>
    have ha : a ≤ 65532 := h a (by simp)
    have ht : ∀ c ∈ t, c ≤ 65532 := fun c hc => h c (by simp [hc])
    simp [shiftUnit, unshiftUnit, ih ht]
    omega

theorem shifted_le (s : List Nat) (hs : ∀ c ∈ s, c ≤ 252) :
    ∀ x ∈ s.map shiftUnit, x ≤ 255 := by
  intro x hx
  simp only [List.mem_map] at hx
  obtain ⟨c, hc, rfl⟩ := hx
  have := hs c hc
  simp only [shiftUnit]
  omega

theorem shifted_all (s : List Nat) (hs : ∀ c ∈ s, c ≤ 252) :
    (s.map shiftUnit).all (fun c => decide (c ≤ 255)) = true := by
  rw [List.all_eq_true]
  intro x hx
  simpa using shifted_le s hs x hx

theorem containsSub_append (n t : List Char) (hp : containsSub n t = true) :
    ∀ l : List Char, containsSub n (l ++ t) = true
  | [] => hp
  | x :: l => by simp [containsSub, containsSub_append n t hp l]

/-- C1: for every printable-ASCII string `s` (every code unit between
32 and 126), including the empty string, `decode (encode s) = s`:
`encode` adds 3 to each code unit and base64-encodes, `decode`
base64-decodes and subtracts 3 from each code unit. -/
theorem C1_decode_encode (s : List Nat) (h : ∀ c ∈ s, 32 ≤ c ∧ c ≤ 126) :
    (encode s).map decode = some s := by
  have hb : ∀ x ∈ s.map shiftUnit, x ≤ 255 :=
    shifted_le s (fun c hc => by have := h c hc; omega)
  have hall : (s.map shiftUnit).all (fun c => decide (c ≤ 255)) = true :=
    shifted_all s (fun c hc => by have := h c hc; omega)
  simp only [encode, btoa, hall, if_true, Option.map_some']
  simp only [decode, atob_btoaChunks _ hb]
  exact congrArg some (shiftUnit_roundtrip s (fun c hc => by have := h c hc; omega))

/-- Witness for C1 at the concrete printable-ASCII input
`"user@example.com"`. -/
theorem C1_witness :
    (encode (strUnits "user@example.com")).map decode =
      some (strUnits "user@example.com") :=
  C1_decode_encode _ (by decide)

/-- C2: on any input on which the base64 layer (`atob`) fails, `decode`
returns the fixed sentinel `"Invalid encoded data"`; `decode` being a
total function, the `try`/`catch` never lets the exception reach the
caller. -/
theorem C2_decode_invalid (s : List Nat) (h : atob s = none) :
    decode s = invalidSentinel := by
  simp [decode, h]

/-- Witness for C2 at the concrete malformed input `"!!!"`. -/
theorem C2_witness :
    atob (strUnits "!!!") = none ∧ decode (strUnits "!!!") = invalidSentinel :=
  ⟨by decide, C2_decode_invalid _ (by decide)⟩

/-- C9: `encode` is partial: it returns a value on every string all of
whose UTF-16 code units are at most 252, and there is an input holding
a code unit of 253 or more (namely `[253]`, shifted to 256, past the
255 limit of `btoa`) on which it raises. -/
theorem C9_encode_domain :
    (∀ s : List Nat, (∀ c ∈ s, c ≤ 252) → (encode s).isSome = true) ∧
    (∃ s : List Nat, (∃ c ∈ s, 253 ≤ c) ∧ encode s = none) := by
  refine ⟨fun s hs => ?_, ⟨[253], ⟨253, by simp, by omega⟩, by decide⟩⟩
  simp [encode, btoa, shifted_all s hs]

/-- C10: the failure sentinel is ambiguous: `encode "Invalid encoded
data"` is well-formed base64 on which `decode` succeeds (the `atob`
layer does not fail) and returns exactly the sentinel string, so a
caller cannot tell malformed input from that legitimate payload. -/
theorem C10_sentinel_ambiguous :
    (encode invalidSentinel).map decode = some invalidSentinel ∧
    (encode invalidSentinel).map (fun t => (atob t).isSome) = some true := by
  decide

/-- C3: for every submit attempt (any endpoint, any outcome of the
request), `selectedAction` moves away from its prior value only on an
HTTP 2xx outcome; on a non-2xx response or a thrown error the final
state keeps `selectedAction`, `scanResult` and `isScanning` at their
prior values, so only the status message is updated. -/
theorem C3_action_transition (st : AppState) (e : String) (out : Outcome)
    (hscan : st.isScanning = false) :
    ((sendToBackend st e out).1.selectedAction ≠ st.selectedAction → out = Outcome.ok) ∧
    (out ≠ Outcome.ok →
      (sendToBackend st e out).1.selectedAction = st.selectedAction ∧
      (sendToBackend st e out).1.scanResult = st.scanResult ∧
      (sendToBackend st e out).1.isScanning = st.isScanning) := by
  rcases Bool.eq_false_or_eq_true (jsFalsy st.scanResult) with hf | hf <;>
    cases out <;> simp [sendToBackend, hf, hscan]

/-- Witness for C3: a non-2xx outcome from the exit endpoint leaves the
state's `selectedAction` untouched. -/
theorem C3_witness :
    ((sendToBackend ⟨some "user@example.com", false, "", none⟩ "/api/v1/qr/exit"
        (Outcome.nonOk none "Forbidden")).1.selectedAction ≠ (none : Option Action) →
      Outcome.nonOk none "Forbidden" = Outcome.ok) ∧
    (Outcome.nonOk none "Forbidden" ≠ Outcome.ok →
      (sendToBackend ⟨some "user@example.com", false, "", none⟩ "/api/v1/qr/exit"
        (Outcome.nonOk none "Forbidden")).1.selectedAction = (none : Option Action) ∧
      (sendToBackend ⟨some "user@example.com", false, "", none⟩ "/api/v1/qr/exit"
        (Outcome.nonOk none "Forbidden")).1.scanResult = some "user@example.com" ∧
      (sendToBackend ⟨some "user@example.com", false, "", none⟩ "/api/v1/qr/exit"
        (Outcome.nonOk none "Forbidden")).1.isScanning = false) :=
  C3_action_transition _ _ _ rfl

/-- C4 counterexample: after a successful entry submission
(`selectedAction = entry`, `isScanning` back to `false`) the entry
button is disabled but the exit button is NOT disabled — its
`disabled` predicate is `isScanning || selectedAction === 'exit'`,
which is false — refuting the claim that both buttons are disabled. -/
theorem C4_counterexample :
    (sendToBackend ⟨some "user@example.com", false, "", none⟩
        "/api/v1/qr/allow-entry" Outcome.ok).1.selectedAction = some Action.entry ∧
    entryDisabled (sendToBackend ⟨some "user@example.com", false, "", none⟩
        "/api/v1/qr/allow-entry" Outcome.ok).1 = true ∧
    exitDisabled (sendToBackend ⟨some "user@example.com", false, "", none⟩
        "/api/v1/qr/allow-entry" Outcome.ok).1 = false := by
  decide

/-- C4 (amended): after a successful entry submission `selectedAction`
is `entry` and the entry button is disabled (already recorded), but the
exit button stays enabled; symmetrically, after a successful exit the
exit button is disabled and the entry button stays enabled. Only the
same action's button is blocked, not the other one. -/
theorem C4_amended (st : AppState) (h : jsFalsy st.scanResult = false) :
    ((handleEntry st Outcome.ok).1.selectedAction = some Action.entry ∧
     entryDisabled (handleEntry st Outcome.ok).1 = true ∧
     exitDisabled (handleEntry st Outcome.ok).1 = false) ∧
    ((handleExit st Outcome.ok).1.selectedAction = some Action.exit ∧
     exitDisabled (handleExit st Outcome.ok).1 = true ∧
     entryDisabled (handleExit st Outcome.ok).1 = false) := by
  have he : includesEntry "/api/v1/qr/allow-entry" = true := by decide
  have hx : includesEntry "/api/v1/qr/exit" = false := by decide
  simp [handleEntry, handleExit, sendToBackend, h, he, hx,
        entryDisabled, exitDisabled]

/-- Witness for C4 (amended) at a concrete scanned state. -/
theorem C4_witness :
    ((handleEntry ⟨some "user@example.com", false, "", none⟩ Outcome.ok).1.selectedAction =
        some Action.entry ∧
     entryDisabled (handleEntry ⟨some "user@example.com", false, "", none⟩ Outcome.ok).1 = true ∧
     exitDisabled (handleEntry ⟨some "user@example.com", false, "", none⟩ Outcome.ok).1 = false) ∧
    ((handleExit ⟨some "user@example.com", false, "", none⟩ Outcome.ok).1.selectedAction =
        some Action.exit ∧
     exitDisabled (handleExit ⟨some "user@example.com", false, "", none⟩ Outcome.ok).1 = true ∧
     entryDisabled (handleExit ⟨some "user@example.com", false, "", none⟩ Outcome.ok).1 = false) :=
  C4_amended _ (by decide)

/-- C5 counterexample: on a non-2xx outcome from the exit endpoint the
status message is `"✗ Exit Error: ... (User may not have entered
yet)"`, which does not contain the literal hint `"not yet entered"`
the claim requires. -/
theorem C5_counterexample :
    strIncludes "not yet entered"
      ((sendToBackend ⟨some "user@example.com", false, "", none⟩ "/api/v1/qr/exit"
        (Outcome.nonOk (some "User not found") "Bad Request")).1.status) = false := by
  decide

/-- C5 (amended): on a non-2xx response the status message is
kind-specific: an entry failure contains the hint `"already entered"`
and an exit failure contains the hint `"not have entered yet"` (the
code's wording of the not-yet-entered hint), whatever the error body
or status text. -/
theorem C5_amended (st : AppState) (m : Option String) (t : String)
    (h : jsFalsy st.scanResult = false) :
    strIncludes "already entered"
      ((sendToBackend st "/api/v1/qr/allow-entry" (Outcome.nonOk m t)).1.status) = true ∧
    strIncludes "not have entered yet"
      ((sendToBackend st "/api/v1/qr/exit" (Outcome.nonOk m t)).1.status) = true := by
  have he : includesEntry "/api/v1/qr/allow-entry" = true := by decide
  have hx : includesEntry "/api/v1/qr/exit" = false := by decide
  have hent : containsSub "already entered".data
      " (User may have already entered)".data = true := by decide
  have hexi : containsSub "not have entered yet".data
      " (User may not have entered yet)".data = true := by decide
  constructor
  · simp only [sendToBackend, h, Bool.false_eq_true, if_false, failureStatus, he,
      if_true, strIncludes, String.data_append]
    rw [List.append_assoc]
    exact containsSub_append _ _ (containsSub_append _ _ hent _) _
  · simp only [sendToBackend, h, Bool.false_eq_true, if_false, failureStatus, hx,
      strIncludes, String.data_append]
    rw [List.append_assoc]
    exact containsSub_append _ _ (containsSub_append _ _ hexi _) _

/-- Witness for C5 (amended) at a concrete scanned state and error
body. -/
theorem C5_witness :
    strIncludes "already entered"
      ((sendToBackend ⟨some "user@example.com", false, "", none⟩ "/api/v1/qr/allow-entry"
        (Outcome.nonOk (some "User not found") "Bad Request")).1.status) = true ∧
    strIncludes "not have entered yet"
      ((sendToBackend ⟨some "user@example.com", false, "", none⟩ "/api/v1/qr/exit"
        (Outcome.nonOk (some "User not found") "Bad Request")).1.status) = true :=
  C5_amended _ _ _ (by decide)

/-- C6: for every submit attempt (a call that passes the scan-result
guard), the submitting flag `isScanning` is `false` when the attempt
finishes, whatever the outcome: 2xx success, 2xx with a failing JSON
parse, handled non-2xx failure, a thrown transport error, and an
exception raised inside the non-2xx handling path itself — the
`finally` block runs on every path. -/
theorem C6_isScanning_cleared (st : AppState) (e : String) (out : Outcome)
    (h : jsFalsy st.scanResult = false) :
    (sendToBackend st e out).1.isScanning = false := by
  cases out <;> simp [sendToBackend, h]

/-- Witness for C6 on the outcome where the error-handling path itself
throws. -/
theorem C6_witness :
    (sendToBackend ⟨some "user@example.com", false, "", none⟩ "/api/v1/qr/allow-entry"
      (Outcome.nonOkThenThrown "boom")).1.isScanning = false :=
  C6_isScanning_cleared _ _ _ (by decide)

/-- C7: calling submit when `scanResult` is absent is a no-op: the
guard `if (!scanResult) return` fires before any state update or
request, so no HTTP request is issued and every state field keeps its
value. -/
theorem C7_noop_without_scan (st : AppState) (e : String) (out : Outcome)
    (h : st.scanResult = none) :
    sendToBackend st e out = (st, none) := by
  simp [sendToBackend, jsFalsy, h]

/-- Witness for C7 at a concrete idle state. -/
theorem C7_witness :
    sendToBackend ⟨none, false, "prompt", none⟩ "/api/v1/qr/allow-entry" Outcome.ok =
      (⟨none, false, "prompt", none⟩, none) :=
  C7_noop_without_scan _ _ _ rfl

/-- C8: every submit that passes the guard issues exactly one POST with
`Content-Type: application/json` to `BACKEND_URL` plus the
kind-specific path (`/api/v1/qr/allow-entry` for entry,
`/api/v1/qr/exit` for exit), whose JSON body is
`{ emaildata: <raw scanned text> }`. -/
theorem C8_request_shape (st : AppState) (out : Outcome) (s : String)
    (hs : st.scanResult = some s) (hne : s ≠ "") :
    (handleEntry st out).2 =
      some { method := "POST", url := BACKEND_URL ++ "/api/v1/qr/allow-entry",
             contentType := "application/json", bodyEmaildata := s } ∧
    (handleExit st out).2 =
      some { method := "POST", url := BACKEND_URL ++ "/api/v1/qr/exit",
             contentType := "application/json", bodyEmaildata := s } := by
  have hf : jsFalsy (some s) = false := by
    simp [jsFalsy]
    exact hne
  constructor <;> cases out <;> simp [handleEntry, handleExit, sendToBackend, hf, hs]

/-- Witness for C8 at a concrete scanned state. -/
theorem C8_witness :
    (handleEntry ⟨some "user@example.com", false, "", none⟩ Outcome.ok).2 =
      some { method := "POST", url := BACKEND_URL ++ "/api/v1/qr/allow-entry",
             contentType := "application/json", bodyEmaildata := "user@example.com" } ∧
    (handleExit ⟨some "user@example.com", false, "", none⟩ Outcome.ok).2 =
      some { method := "POST", url := BACKEND_URL ++ "/api/v1/qr/exit",
             contentType := "application/json", bodyEmaildata := "user@example.com" } :=
  C8_request_shape _ _ _ rfl (by decide)

end SrijanScanner
